import Mathlib

/-!
Verification development for the language-quiz-api repository.

The definitions below are a shallow embedding of the Python source:
  * `src/models/{quiz,question,answer}.py` (data model and serializers),
  * `src/controllers/quiz_controller.py` (authoring: create/get/update),
  * `src/controllers/quiz_session_controller.py` (sessions and scoring).

Python numbers are modelled as `Int`/`Nat` (ids, points, counts) and `ℚ`
(true division and percentages); JSON dictionaries as the `Json` tree;
Python exceptions as `Except`; the request-scoped database session as an
explicit `Store` value threaded through each operation, with validation
failures returning the caller's original store (the uncommitted session is
rolled back at request teardown).
-/

set_option autoImplicit false

namespace QuizApi

/-- JSON values, the shape of serialized response payloads. -/
inductive Json where
  | null : Json
  | jb : Bool → Json
  | ji : Int → Json
  | js : String → Json
  | jarr : List Json → Json
  | jobj : List (String × Json) → Json
deriving Repr

/-- Serialize an optional string (`None` becomes JSON null). -/
def optStr : Option String → Json
  | none => .null
  | some s => .js s

/-- Serialize an optional integer (`None` becomes JSON null). -/
def optInt : Option Int → Json
  | none => .null
  | some n => .ji n

/-- `answer.py`: one answer row as loaded from the database. -/
structure Answer where
  id : Int
  text : String
  is_correct : Bool
  explanation : Option String
  order_index : Int
  created_at : Int
  question_id : Int
deriving Repr, DecidableEq

/-- `question.py`: one question row, with its loaded `answers` relationship. -/
structure Question where
  id : Int
  text : String
  question_type : String
  explanation : Option String
  points : Int
  order_index : Int
  created_at : Int
  quiz_id : Int
  answers : List Answer
deriving Repr, DecidableEq

/-- `quiz.py`: one quiz row, with its loaded `questions` relationship. -/
structure Quiz where
  id : Int
  title : String
  description : Option String
  category : Option String
  difficulty_level : String
  time_limit : Option Int
  is_active : Bool
  created_at : Int
  updated_at : Int
  created_by : Option String
  questions : List Question
deriving Repr, DecidableEq

/-- `Answer.to_dict` (educator view, includes `is_correct`). -/
def Answer.to_dict (a : Answer) : Json :=
  .jobj [("id", .ji a.id), ("text", .js a.text), ("is_correct", .jb a.is_correct),
    ("explanation", optStr a.explanation), ("order_index", .ji a.order_index),
    ("created_at", .js (toString a.created_at)), ("question_id", .ji a.question_id)]

/-- `Answer.to_student_dict` (student view: id, text, order only). -/
def Answer.to_student_dict (a : Answer) : Json :=
  .jobj [("id", .ji a.id), ("text", .js a.text), ("order_index", .ji a.order_index)]

/-- `Question.to_dict`. -/
def Question.to_dict (q : Question) (include_answers : Bool) : Json :=
  let base := [("id", .ji q.id), ("text", .js q.text),
    ("question_type", .js q.question_type), ("explanation", optStr q.explanation),
    ("points", .ji q.points), ("order_index", .ji q.order_index),
    ("created_at", .js (toString q.created_at)), ("quiz_id", .ji q.quiz_id)]
  .jobj (if include_answers then base ++ [("answers", .jarr (q.answers.map Answer.to_dict))] else base)

/-- `Question.to_student_dict`. -/
def Question.to_student_dict (q : Question) : Json :=
  .jobj [("id", .ji q.id), ("text", .js q.text), ("question_type", .js q.question_type),
    ("points", .ji q.points), ("order_index", .ji q.order_index),
    ("answers", .jarr (q.answers.map Answer.to_student_dict))]

/-- `Quiz.to_dict`. -/
def Quiz.to_dict (qz : Quiz) (include_questions : Bool) : Json :=
  let base := [("id", .ji qz.id), ("title", .js qz.title),
    ("description", optStr qz.description), ("category", optStr qz.category),
    ("difficulty_level", .js qz.difficulty_level), ("time_limit", optInt qz.time_limit),
    ("is_active", .jb qz.is_active), ("created_at", .js (toString qz.created_at)),
    ("updated_at", .js (toString qz.updated_at)), ("created_by", optStr qz.created_by),
    ("question_count", .ji (qz.questions.length : Int))]
  .jobj (if include_questions then
    base ++ [("questions", .jarr (qz.questions.map (fun q => Question.to_dict q true)))] else base)

/-- `Quiz.to_student_dict` (no correct-answer information). -/
def Quiz.to_student_dict (qz : Quiz) : Json :=
  .jobj [("id", .ji qz.id), ("title", .js qz.title), ("description", optStr qz.description),
    ("category", optStr qz.category), ("difficulty_level", .js qz.difficulty_level),
    ("time_limit", optInt qz.time_limit), ("question_count", .ji (qz.questions.length : Int)),
    ("questions", .jarr (qz.questions.map Question.to_student_dict))]

/-- `json_value contains an object carrying key `k`, at any depth. -/
inductive HasKey (k : String) : Json → Prop where
  | here {fs : List (String × Json)} {v : Json} : (k, v) ∈ fs → HasKey k (.jobj fs)
  | inObjVal {fs : List (String × Json)} {key : String} {v : Json} :
      (key, v) ∈ fs → HasKey k v → HasKey k (.jobj fs)
  | inArr {xs : List Json} {x : Json} : x ∈ xs → HasKey k x → HasKey k (.jarr xs)

/-- `base_controller.py` response envelope: `(jsonify(...), status_code)`.
`ok` carries the `data` payload, `err` the optional `error` details. -/
inductive Resp (α : Type) where
  | ok : (message : String) → (data : α) → (status : Int) → Resp α
  | err : (message : String) → (status : Int) → (details : Option Json) → Resp α
deriving Repr

/-- `BaseController.success_response`. -/
def success_response {α : Type} (data : α) (message : String) (status_code : Int) : Resp α :=
  .ok message data status_code

/-- `BaseController.error_response` (no details). -/
def error_response {α : Type} (message : String) (status_code : Int) : Resp α :=
  .err message status_code none

/-- `BaseController.validation_error_response`: 422 with an error-detail map. -/
def validation_error_response {α : Type} (errors : Json) : Resp α :=
  .err "Validation errors" 422 (some errors)

/-- True iff the response is an error envelope. -/
def Resp.isErr {α : Type} : Resp α → Bool
  | .ok _ _ _ => false
  | .err _ _ _ => true

/-- Status code of a response. -/
def Resp.status {α : Type} : Resp α → Int
  | .ok _ _ s => s
  | .err _ s _ => s

/-- A persisted `quiz` table row. -/
structure QuizRow where
  id : Int
  title : String
  description : Option String
  category : Option String
  difficulty_level : String
  time_limit : Option Int
  is_active : Bool
  created_at : Int
  updated_at : Int
  created_by : Option String
deriving Repr, DecidableEq

/-- A persisted `question` table row. -/
structure QuestionRow where
  id : Int
  text : String
  question_type : String
  explanation : Option String
  points : Int
  order_index : Int
  created_at : Int
  quiz_id : Int
deriving Repr, DecidableEq

/-- A persisted `answer` table row. -/
structure AnswerRow where
  id : Int
  text : String
  is_correct : Bool
  explanation : Option String
  order_index : Int
  created_at : Int
  question_id : Int
deriving Repr, DecidableEq

/-- The committed database: three tables plus the autoincrement id sequences. -/
structure Store where
  quizzes : List QuizRow
  questions : List QuestionRow
  answers : List AnswerRow
  nextQuizId : Int
  nextQuestionId : Int
  nextAnswerId : Int
deriving Repr, DecidableEq

/-- `Quiz.query.get(quiz_id)`: primary-key lookup. -/
def findQuizRow (store : Store) (quiz_id : Int) : Option QuizRow :=
  store.quizzes.find? (fun q => q.id == quiz_id)

/-- Materialize an `Answer` entity from its row. -/
def loadAnswer (r : AnswerRow) : Answer :=
  ⟨r.id, r.text, r.is_correct, r.explanation, r.order_index, r.created_at, r.question_id⟩

/-- Materialize a `Question` entity with its `answers` relationship. -/
def loadQuestion (store : Store) (r : QuestionRow) : Question :=
  ⟨r.id, r.text, r.question_type, r.explanation, r.points, r.order_index, r.created_at, r.quiz_id,
    (store.answers.filter (fun a => a.question_id == r.id)).map loadAnswer⟩

/-- Materialize a `Quiz` entity with its `questions` relationship
(`Quiz.query.get` followed by relationship loading). -/
def loadQuiz (store : Store) (quiz_id : Int) : Option Quiz :=
  (findQuizRow store quiz_id).map (fun r =>
    ⟨r.id, r.title, r.description, r.category, r.difficulty_level, r.time_limit, r.is_active,
      r.created_at, r.updated_at, r.created_by,
      (store.questions.filter (fun q => q.quiz_id == r.id)).map (loadQuestion store)⟩)

/-- A JSON scalar as it arrives in a submitted answers array
(the values fed to Python's `int(...)`). -/
inductive PyVal where
  | vint : Int → PyVal
  | vstr : String → PyVal
  | vnone : PyVal
deriving Repr, DecidableEq

/-- Python `int(value)`: identity on ints, decimal parse on strings,
`TypeError` (here `none`) on `None`. -/
def coerceInt : PyVal → Option Int
  | .vint n => some n
  | .vstr s => s.toInt?
  | .vnone => none

/-- One element of the submitted `answers` array; each key may be absent. -/
structure SubEntry where
  question_id : Option PyVal
  answer_id : Option PyVal
deriving Repr, DecidableEq

/-- The body of `POST /quiz-sessions/submit`: the `answers` key may be absent,
`started_at` is an optional timestamp string. -/
structure Submission where
  answers : Option (List SubEntry)
  started_at : Option String
deriving Repr, DecidableEq

/-- An uncaught Python exception escaping the controller. -/
inductive PyError where
  | uncaught : PyError
deriving Repr, DecidableEq

/-- Coerce one entry of the submitted-answers comprehension
(`quiz_session_controller.py` lines 135-139): entries missing either key are
filtered out; present values are passed through `int(...)`, whose failure
raises (aborting the whole comprehension). -/
def coerceEntry (e : SubEntry) : Except PyError (Option (Int × Int)) :=
  match e.question_id, e.answer_id with
  | some qv, some av =>
    match coerceInt qv, coerceInt av with
    | some q, some a => .ok (some (q, a))
    | _, _ => .error .uncaught
  | _, _ => .ok none

/-- Coerce the whole submitted-answers list, aborting on the first failure. -/
def coerceEntries : List SubEntry → Except PyError (List (Int × Int))
  | [] => .ok []
  | e :: rest =>
    match coerceEntry e with
    | .error pe => .error pe
    | .ok none => coerceEntries rest
    | .ok (some p) => (coerceEntries rest).map (fun l => p :: l)

/-- The dict comprehension `{int(a[qid]): int(a[aid]) ...}`: a finite map
built left to right, later pairs overwriting earlier ones. -/
def buildLookup (pairs : List (Int × Int)) : Int → Option Int :=
  pairs.foldl (fun m p => fun k => if k = p.1 then some p.2 else m k) (fun _ => none)

/-- `Question.get_correct_answer`: the first answer flagged correct, if any. -/
def get_correct_answer (q : Question) : Option Answer :=
  q.answers.find? (fun a => a.is_correct)

/-- Round-half-to-even on ℚ, the tie rule of Python's builtin `round`. -/
def roundHalfEven (x : ℚ) : ℤ :=
  let n := ⌊x⌋
  if x - n < 1/2 then n
  else if 1/2 < x - n then n + 1
  else if n % 2 = 0 then n else n + 1

/-- Python `round(x, 2)`. -/
def round2 (x : ℚ) : ℚ :=
  (roundHalfEven (x * 100) : ℚ) / 100

/-- `QuizSessionController._calculate_grade`. -/
def calculate_grade (percentage : ℚ) : String :=
  if percentage ≥ 90 then "A"
  else if percentage ≥ 80 then "B"
  else if percentage ≥ 70 then "C"
  else if percentage ≥ 60 then "D"
  else "F"

/-- The `performance_feedback` object. -/
structure Feedback where
  message : String
  suggestions : List String
deriving Repr, DecidableEq

/-- `QuizSessionController._generate_performance_feedback`. -/
def generate_performance_feedback (percentage : ℚ) (difficulty_level : String) : Feedback :=
  if percentage ≥ 90 then
    ⟨"Excellent work! You\x27ve mastered this material.",
     ["Consider trying a more challenging " ++ difficulty_level ++ " quiz",
      "You\x27re ready to move on to advanced topics"]⟩
  else if percentage ≥ 80 then
    ⟨"Great job! You have a solid understanding of the material.",
     ["Review the questions you missed for even better results",
      "You\x27re doing well - keep practicing!"]⟩
  else if percentage ≥ 70 then
    ⟨"Good work! You\x27re getting the hang of it.",
     ["Focus on reviewing the areas where you made mistakes",
      "Try some practice exercises to strengthen weak areas"]⟩
  else if percentage ≥ 60 then
    ⟨"You\x27re making progress, but there\x27s room for improvement.",
     ["Review the material and try again",
      "Consider studying the explanations for incorrect answers",
      "Practice with similar quizzes to build confidence"]⟩
  else
    ⟨"This is a challenging topic - don\x27t give up!",
     ["Review the study material carefully",
      "Start with easier quizzes to build your foundation",
      "Consider getting help from a teacher or study group",
      "Take your time and try again when you feel ready"]⟩

/-- The per-question record appended to `question_results`. -/
structure QuestionResult where
  question_id : Int
  question_text : String
  question_type : String
  points_possible : Int
  points_earned : Int
  is_correct : Bool
  submitted_answer : Option (Int × String)
  correct_answer : Option (Int × String × Option String)
  question_explanation : Option String
deriving Repr, DecidableEq

/-- The `score_summary` object of a scored submission. -/
structure ScoreSummary where
  correct_answers : Nat
  total_questions : Nat
  percentage_correct : ℚ
  points_earned : Int
  total_points_possible : Int
  points_percentage : ℚ
  grade : String
deriving Repr, DecidableEq

/-- The `quiz_info` object of a scored submission. -/
structure QuizInfo where
  id : Int
  title : String
  category : Option String
  difficulty_level : String
deriving Repr, DecidableEq

/-- The full result object built by `_process_quiz_submission`. -/
structure Results where
  quiz_info : QuizInfo
  score_summary : ScoreSummary
  question_results : List QuestionResult
  performance_feedback : Feedback
  submitted_at : String
deriving Repr, DecidableEq

/-- The body of the per-question loop of `_process_quiz_submission`
(lines 142-183).  Python truthiness: a submitted id of `0` is falsy, so the
`if submitted_answer_id and correct_answer` guard skips it. -/
def scoreQuestion (lookup : Int → Option Int) (q : Question) : QuestionResult :=
  let submitted_answer_id := lookup q.id
  let correct_answer := get_correct_answer q
  let is_correct : Bool :=
    match submitted_answer_id, correct_answer with
    | some sid, some ca => sid != 0 && sid == ca.id
    | _, _ => false
  let submitted_answer : Option (Int × String) :=
    match submitted_answer_id with
    | some sid =>
      if sid != 0 then (q.answers.find? (fun a => a.id == sid)).map (fun a => (a.id, a.text))
      else none
    | none => none
  { question_id := q.id
    question_text := q.text
    question_type := q.question_type
    points_possible := q.points
    points_earned := if is_correct then q.points else 0
    is_correct := is_correct
    submitted_answer := submitted_answer
    correct_answer := correct_answer.map (fun ca => (ca.id, ca.text, ca.explanation))
    question_explanation := q.explanation }

/-- The accumulation of the scoring loop: correct count, points earned, and
the ordered `question_results` list. -/
def scoreQuestions (lookup : Int → Option Int) : List Question → Nat × Int × List QuestionResult
  | [] => (0, 0, [])
  | q :: rest =>
    let r := scoreQuestion lookup q
    let (c, pts, rs) := scoreQuestions lookup rest
    ((if r.is_correct then 1 else 0) + c, (if r.is_correct then q.points else 0) + pts, r :: rs)

/-- `QuizSessionController._process_quiz_submission`.  `nowIso` is the
`datetime.utcnow().isoformat()` string stamped on the result.  An id that
fails `int(...)` coercion propagates as an uncaught exception. -/
def process_quiz_submission (quiz : Quiz) (submitted_answers : List SubEntry)
    (nowIso : String) : Except PyError Results :=
  let total_questions := quiz.questions.length
  let total_points_possible := (quiz.questions.map Question.points).sum
  match coerceEntries submitted_answers with
  | .error pe => .error pe
  | .ok pairs =>
    let lookup := buildLookup pairs
    let scored := scoreQuestions lookup quiz.questions
    let correct_count := scored.1
    let total_points_earned := scored.2.1
    let question_results := scored.2.2
    let percentage_correct : ℚ :=
      if 0 < total_questions then (correct_count : ℚ) / (total_questions : ℚ) * 100 else 0
    let points_percentage : ℚ :=
      if 0 < total_points_possible then
        (total_points_earned : ℚ) / (total_points_possible : ℚ) * 100
      else 0
    let grade := calculate_grade percentage_correct
    .ok
      { quiz_info := ⟨quiz.id, quiz.title, quiz.category, quiz.difficulty_level⟩
        score_summary :=
          { correct_answers := correct_count
            total_questions := total_questions
            percentage_correct := round2 percentage_correct
            points_earned := total_points_earned
            total_points_possible := total_points_possible
            points_percentage := round2 points_percentage
            grade := grade }
        question_results := question_results
        performance_feedback := generate_performance_feedback percentage_correct quiz.difficulty_level
        submitted_at := nowIso }

/-- Python truthiness of an optional integer column (`None` and `0` are falsy). -/
def truthyInt : Option Int → Bool
  | some n => n != 0
  | none => false

/-- The time-limit guard of `submit_quiz` (lines 93-105): rejects exactly when
the quiz has a truthy `time_limit`, the submission carries a `started_at`
string that parses, and the elapsed minutes exceed the limit.  A parse
failure (`ValueError`) is caught and time is not enforced.  `parseIso` models
the external `datetime.fromisoformat`; `now` is the wall clock in seconds. -/
def timeLimitRejected (quiz : Quiz) (submission_data : Submission)
    (parseIso : String → Option ℚ) (now : ℚ) : Bool :=
  match quiz.time_limit, submission_data.started_at with
  | some tl, some s =>
    (tl != 0) &&
      (match parseIso (s.replace "Z" "+00:00") with
       | some started_at => decide ((now - started_at) / 60 > (tl : ℚ))
       | none => false)
  | _, _ => false

/-- `QuizSessionController.submit_quiz`.  Uncaught exceptions (a non-coercible
submitted id) surface as `.error`, which Flask renders as a 500. -/
def submit_quiz (store : Store) (quiz_id : Int) (submission_data : Submission)
    (parseIso : String → Option ℚ) (now : ℚ) (nowIso : String) :
    Except PyError (Resp Results) :=
  match loadQuiz store quiz_id with
  | none => .ok (error_response "Quiz not found" 404)
  | some quiz =>
    if !quiz.is_active then .ok (error_response "Quiz is not currently available" 403)
    else
      match submission_data.answers with
      | none => .ok (error_response "Submission must include answers" 422)
      | some answers_data =>
        if timeLimitRejected quiz submission_data parseIso now then
          .ok (error_response "Time limit exceeded for this quiz" 422)
        else
          (process_quiz_submission quiz answers_data nowIso).map
            (fun results => success_response results "Quiz submitted successfully!" 200)

/-- The `session_info` object returned by `start_quiz_session`. -/
structure SessionInfo where
  started_at : String
  student_id : Option String
  time_limit_minutes : Option Int
  deadline : Option String
deriving Repr, DecidableEq

/-- The payload of a started session. -/
structure SessionData where
  quiz : Json
  session_info : SessionInfo
deriving Repr

/-- `QuizSessionController.start_quiz_session`.  `fmt` models
`datetime.isoformat`; the deadline is `utcnow + time_limit` minutes and is
attached only when the quiz has a truthy time limit. -/
def start_quiz_session (store : Store) (quiz_id : Int) (student_id : Option String)
    (fmt : ℚ → String) (now : ℚ) : Resp SessionData :=
  match loadQuiz store quiz_id with
  | none => error_response "Quiz not found" 404
  | some quiz =>
    if !quiz.is_active then error_response "Quiz is not currently available" 403
    else
      let deadline : Option String :=
        if truthyInt quiz.time_limit then some (fmt (now + 60 * (quiz.time_limit.getD 0 : ℚ)))
        else none
      success_response
        ⟨quiz.to_student_dict, ⟨fmt now, student_id, quiz.time_limit, deadline⟩⟩
        "Quiz session started successfully" 200

/-- `QuizController.get_quiz`. -/
def get_quiz (store : Store) (quiz_id : Int) (for_student : Bool) : Resp Json :=
  match loadQuiz store quiz_id with
  | none => error_response "Quiz not found" 404
  | some quiz =>
    if !quiz.is_active then error_response "Quiz is not currently available" 403
    else
      success_response
        (if for_student then quiz.to_student_dict else quiz.to_dict true)
        "Quiz retrieved successfully" 200

/-- One answer specification of a quiz-create payload; every key is optional
in the JSON body. -/
structure AnswerSpec where
  text : Option String
  is_correct : Option Bool
  explanation : Option String
deriving Repr, DecidableEq

/-- One question specification of a quiz-create payload. -/
structure QuestionSpec where
  text : Option String
  question_type : Option String
  explanation : Option String
  points : Option Int
  answers : Option (List AnswerSpec)
deriving Repr, DecidableEq

/-- A quiz-create payload (`POST /api/v1/quizzes` body). -/
structure CreatePayload where
  title : Option String
  description : Option String
  category : Option String
  difficulty_level : Option String
  time_limit : Option Int
  questions : Option (List QuestionSpec)
deriving Repr, DecidableEq

/-- Python truthiness of an optional string (`None` and `""` are falsy). -/
def truthyStr : Option String → Bool
  | some s => s != ""
  | none => false

/-- `BaseController.validate_required_fields(data, ['title', 'questions'])`:
a field errors when absent, `None`, or the empty string (a present question
list is never `""`). -/
def validate_required_fields_create (data : CreatePayload) : List (String × String) :=
  (match data.title with
   | none => [("title", "title is required")]
   | some s => if s = "" then [("title", "title is required")] else []) ++
  (match data.questions with
   | none => [("questions", "questions is required")]
   | some _ => [])

/-- `QuizController._validate_question_data`. -/
def validate_question_data (q : QuestionSpec) : List (String × String) :=
  (if !truthyStr q.text then [("text", "Question text is required")] else []) ++
  (if (match q.answers with
       | none => true
       | some l => decide (l.length < 2)) then
    [("answers", "Question must have at least 2 answer choices")] else []) ++
  (let qt := q.question_type.getD "multiple_choice"
   if !(qt == "multiple_choice" || qt == "true_false" || qt == "fill_blank") then
     [("question_type", "Question type must be one of: multiple_choice, true_false, fill_blank")]
   else [])

/-- `QuizController._validate_answer_data`. -/
def validate_answer_data (a : AnswerSpec) : List (String × String) :=
  if !truthyStr a.text then [("text", "Answer text is required")] else []

/-- A flat field-error map serialized as the `error` details object. -/
def flatErrors (errors : List (String × String)) : Json :=
  .jobj (errors.map (fun e => (e.1, Json.js e.2)))

/-- A nested per-question error map (`{"question_i": {field: msg}}`). -/
def nestedErrors (key : String) (errors : List (String × String)) : Json :=
  .jobj [(key, flatErrors errors)]

/-- The number of answers of a question specification flagged correct
(`is_correct` defaults to false). -/
def correct_answer_count (q : QuestionSpec) : Nat :=
  ((q.answers.getD []).filter (fun a => a.is_correct.getD false)).length

/-- The inner answers loop of `create_quiz` (lines 83-103): validates each
answer, counts the ones flagged correct, and stages an `answer` row. -/
def createAnswersLoop (st : Store) (q_index : Nat) (qid : Int) (now : Int)
    (a_index : Nat) (cnt : Nat) :
    List AnswerSpec → Except (Resp Json) (Store × Nat)
  | [] => .ok (st, cnt)
  | a :: rest =>
    let answer_errors := validate_answer_data a
    if answer_errors ≠ [] then
      .error (validation_error_response
        (nestedErrors ("question_" ++ toString q_index ++ "_answer_" ++ toString a_index)
          answer_errors))
    else
      let is_correct := a.is_correct.getD false
      let cnt2 := if is_correct then cnt + 1 else cnt
      let st2 := { st with
        answers := st.answers ++
          [⟨st.nextAnswerId, a.text.getD "", is_correct, a.explanation, (a_index : Int), now, qid⟩]
        nextAnswerId := st.nextAnswerId + 1 }
      createAnswersLoop st2 q_index qid now (a_index + 1) cnt2 rest

/-- The outer questions loop of `create_quiz` (lines 63-110): validates each
question, stages its row, processes its answers, then rejects unless exactly
one answer was flagged correct. -/
def createQuestionsLoop (st : Store) (quizId : Int) (now : Int) (q_index : Nat) :
    List QuestionSpec → Except (Resp Json) Store
  | [] => .ok st
  | q :: rest =>
    let question_errors := validate_question_data q
    if question_errors ≠ [] then
      .error (validation_error_response
        (nestedErrors ("question_" ++ toString q_index) question_errors))
    else
      let qrow : QuestionRow :=
        ⟨st.nextQuestionId, q.text.getD "", q.question_type.getD "multiple_choice",
          q.explanation, q.points.getD 1, (q_index : Int), now, quizId⟩
      let st2 := { st with
        questions := st.questions ++ [qrow]
        nextQuestionId := st.nextQuestionId + 1 }
      match createAnswersLoop st2 q_index qrow.id now 0 0 (q.answers.getD []) with
      | .error r => .error r
      | .ok (st3, correct_count) =>
        if correct_count ≠ 1 then
          .error (error_response
            ("Question " ++ toString (q_index + 1) ++ " must have exactly one correct answer") 422)
        else createQuestionsLoop st3 quizId now (q_index + 1) rest

/-- Serialize the quiz `quiz_id` of `store` with nested questions and
answers (`new_quiz.to_dict(include_questions=True)`). -/
def quizDataFromStore (store : Store) (quiz_id : Int) : Json :=
  match loadQuiz store quiz_id with
  | some qz => qz.to_dict true
  | none => .null

/-- `QuizController.create_quiz`.  All rows are staged on a request-scoped
session and committed only after every check passes; a validation failure
returns before `commit`, so the session's staged writes are discarded at
request teardown and the committed store is returned unchanged. -/
def create_quiz (store : Store) (data : CreatePayload) (created_by : Option String)
    (now : Int) : Resp Json × Store :=
  let validation_errors := validate_required_fields_create data
  if validation_errors ≠ [] then
    (validation_error_response (flatErrors validation_errors), store)
  else
    match data.questions with
    | none =>
      -- unreachable: a missing question list already failed the required check
      (validation_error_response (flatErrors validation_errors), store)
    | some qs =>
      if qs.length = 0 then (error_response "Quiz must have at least one question" 422, store)
      else
        let quizRow : QuizRow :=
          { id := store.nextQuizId
            title := data.title.getD ""
            description := data.description
            category := data.category
            difficulty_level := data.difficulty_level.getD "beginner"
            time_limit := data.time_limit
            is_active := true
            created_at := now
            updated_at := now
            created_by := created_by }
        let st1 := { store with
          quizzes := store.quizzes ++ [quizRow]
          nextQuizId := store.nextQuizId + 1 }
        match createQuestionsLoop st1 quizRow.id now 0 qs with
        | .error r => (r, store)
        | .ok st2 =>
          (success_response (quizDataFromStore st2 quizRow.id) "Quiz created successfully!" 201, st2)

/-- A partial-update payload (`PUT /api/v1/quizzes/{id}` body): the outer
`Option` is key presence, the inner value may itself be JSON null. -/
structure UpdatePayload where
  title : Option String
  description : Option (Option String)
  category : Option (Option String)
  difficulty_level : Option String
  time_limit : Option (Option Int)
  is_active : Option Bool
deriving Repr, DecidableEq

/-- Replace the first quiz row with the given id (the mutation of the single
object returned by `Quiz.query.get`). -/
def replaceQuizRow : List QuizRow → Int → QuizRow → List QuizRow
  | [], _, _ => []
  | q :: rest, qid, u => if q.id == qid then u :: rest else q :: replaceQuizRow rest qid u

/-- The updated row built by `update_quiz`: each supplied field overwrites,
each absent field keeps its stored value, and `updated_at` is set to now. -/
def applyUpdate (quiz : QuizRow) (data : UpdatePayload) (now : Int) : QuizRow :=
  { quiz with
    title := data.title.getD quiz.title
    description := data.description.getD quiz.description
    category := data.category.getD quiz.category
    difficulty_level := data.difficulty_level.getD quiz.difficulty_level
    time_limit := data.time_limit.getD quiz.time_limit
    is_active := data.is_active.getD quiz.is_active
    updated_at := now }

/-- `QuizController.update_quiz`. -/
def update_quiz (store : Store) (quiz_id : Int) (data : UpdatePayload) (now : Int) :
    Resp Json × Store :=
  match findQuizRow store quiz_id with
  | none => (error_response "Quiz not found" 404, store)
  | some quiz =>
    let store2 := { store with quizzes := replaceQuizRow store.quizzes quiz_id (applyUpdate quiz data now) }
    (success_response (quizDataFromStore store2 quiz_id) "Quiz updated successfully" 200, store2)

/-! ### Concrete stores and payloads used by witnesses and counterexamples -/

def stInactive : Store :=
  ⟨[⟨1, "T", none, none, "beginner", none, false, 0, 0, none⟩], [], [], 2, 1, 1⟩

def rowB : QuizRow := ⟨1, "Old", none, none, "beginner", none, true, 0, 0, none⟩

def stOne : Store := ⟨[rowB], [], [], 2, 1, 1⟩

def updTitle : UpdatePayload := ⟨some "New", none, none, none, none, some false⟩

def stTL : Store :=
  ⟨[⟨1, "T", none, none, "beginner", some 30, true, 0, 0, none⟩], [], [], 2, 1, 1⟩

def quizTL : Quiz := ⟨1, "T", none, none, "beginner", some 30, true, 0, 0, none, []⟩

def quizW : Quiz :=
  ⟨1, "T", none, none, "beginner", none, true, 0, 0, none,
    [⟨1, "Q1?", "multiple_choice", none, 1, 0, 0, 1,
      [⟨1, "a", true, none, 0, 0, 1⟩, ⟨2, "b", false, none, 1, 0, 1⟩]⟩]⟩

def entriesW : List SubEntry := [⟨some (.vint 1), some (.vint 1)⟩]

def isClientError {α : Type} : Except PyError (Resp α) → Bool
  | .ok (.err _ c _) => decide (400 ≤ c) && decide (c < 500)
  | _ => false

def stQ : Store :=
  ⟨[⟨1, "T", none, none, "beginner", none, true, 0, 0, none⟩],
   [⟨1, "Q1?", "multiple_choice", none, 1, 0, 0, 1⟩],
   [⟨1, "a", true, none, 0, 0, 1⟩, ⟨2, "b", false, none, 1, 0, 1⟩], 2, 2, 3⟩

def subBad : Submission := ⟨some [⟨some .vnone, some (.vint 1)⟩], none⟩

def quizQ : Quiz :=
  ⟨1, "T", none, none, "beginner", none, true, 0, 0, none,
    [⟨1, "Q1?", "multiple_choice", none, 1, 0, 0, 1,
      [⟨1, "a", true, none, 0, 0, 1⟩, ⟨2, "b", false, none, 1, 0, 1⟩]⟩]⟩

def strStarts (s pat : String) : Bool :=
  s.data.take pat.data.length == pat.data

def namesQuestion {α : Type} (r : Resp α) (i : Nat) : Bool :=
  match r with
  | .ok _ _ _ => false
  | .err m _ d =>
    (m == ("Question " ++ toString (i + 1) ++ " must have exactly one correct answer")) ||
      (match d with
       | some (.jobj fs) => fs.any (fun f => strStarts f.1 ("question_" ++ toString i))
       | _ => false)

def st0 : Store := ⟨[], [], [], 1, 1, 1⟩

def badQspec : QuestionSpec :=
  ⟨some "Q2?", none, none, none, some [⟨some "a", some true, none⟩, ⟨some "b", some true, none⟩]⟩

def q0invalid : QuestionSpec :=
  ⟨none, none, none, none, some [⟨some "a", some true, none⟩, ⟨some "b", none, none⟩]⟩

def dataX : CreatePayload := ⟨some "T", none, none, none, none, some [q0invalid, badQspec]⟩

def dataBad1 : CreatePayload := ⟨some "T", none, none, none, none, some [badQspec]⟩

def storeA : Store :=
  ⟨[⟨1, "T", none, none, "beginner", none, true, 0, 0, none⟩],
   [⟨1, "Q1?", "multiple_choice", none, 1, 0, 0, 1⟩],
   [⟨1, "a", true, none, 0, 0, 1⟩, ⟨2, "b", false, none, 1, 0, 1⟩], 2, 2, 3⟩

def studentPayloadA : Json :=
  match get_quiz storeA 1 true with
  | .ok _ d _ => d
  | _ => .null

/-! ### Helper lemmas -/

theorem foldl_lookup_eq (init : Int → Option Int) (ps : List (Int × Int)) (k : Int) :
    (ps.foldl (fun m p => fun j => if j = p.1 then some p.2 else m j) init) k =
      (match ps.reverse.find? (fun p => p.1 == k) with
       | some p => some p.2
       | none => init k) := by
  induction ps generalizing init with
  | nil => simp
  | cons p ps ih =>
    simp only [List.foldl_cons, List.reverse_cons, List.find?_append]
    rw [ih]
    cases hfind : ps.reverse.find? (fun q => q.1 == k) with
    | some q => simp
    | none =>
      simp only [Option.none_orElse, List.find?_cons, List.find?_nil]
      cases hbeq : (p.1 == k) with
      | true => simp [beq_iff_eq.mp hbeq, eq_comm]
      | false =>
        have : ¬ k = p.1 := fun h => by simp [h] at hbeq
        simp [this]

theorem not_hasKey_scalar_ji (k : String) (n : Int) : ¬ HasKey k (.ji n) := by
  intro h; cases h

theorem not_hasKey_scalar_js (k : String) (s : String) : ¬ HasKey k (.js s) := by
  intro h; cases h

theorem not_hasKey_null (k : String) : ¬ HasKey k .null := by
  intro h; cases h

theorem not_hasKey_optStr (k : String) (o : Option String) : ¬ HasKey k (optStr o) := by
  cases o <;> intro h <;> cases h

theorem not_hasKey_optInt (k : String) (o : Option Int) : ¬ HasKey k (optInt o) := by
  cases o <;> intro h <;> cases h

theorem answer_student_no_is_correct (a : Answer) :
    ¬ HasKey "is_correct" (Answer.to_student_dict a) := by
  intro h
  cases h with
  | here hmem => simp [Answer.to_student_dict] at hmem
  | inObjVal hmem hk =>
    simp [Answer.to_student_dict] at hmem
    rcases hmem with ⟨_, hv⟩ | ⟨_, hv⟩ | ⟨_, hv⟩ <;> subst hv <;> cases hk

theorem question_student_no_is_correct (q : Question) :
    ¬ HasKey "is_correct" (Question.to_student_dict q) := by
  intro h
  cases h with
  | here hmem => simp [Question.to_student_dict] at hmem
  | inObjVal hmem hk =>
    simp [Question.to_student_dict] at hmem
    rcases hmem with ⟨_, hv⟩ | ⟨_, hv⟩ | ⟨_, hv⟩ | ⟨_, hv⟩ | ⟨_, hv⟩ | ⟨_, hv⟩ <;> subst hv
    · cases hk
    · cases hk
    · cases hk
    · cases hk
    · cases hk
    · cases hk with
      | inArr hx hkx =>
        rcases List.mem_map.mp hx with ⟨a, _, ha⟩
        exact answer_student_no_is_correct a (ha ▸ hkx)

theorem quiz_student_no_is_correct (qz : Quiz) :
    ¬ HasKey "is_correct" (Quiz.to_student_dict qz) := by
  intro h
  cases h with
  | here hmem => simp [Quiz.to_student_dict] at hmem
  | inObjVal hmem hk =>
    simp [Quiz.to_student_dict] at hmem
    rcases hmem with ⟨_, hv⟩ | ⟨_, hv⟩ | ⟨_, hv⟩ | ⟨_, hv⟩ | ⟨_, hv⟩ | ⟨_, hv⟩ | ⟨_, hv⟩ | ⟨_, hv⟩ <;> subst hv
    · cases hk
    · cases hk
    · exact not_hasKey_optStr _ _ hk
    · exact not_hasKey_optStr _ _ hk
    · cases hk
    · exact not_hasKey_optInt _ _ hk
    · cases hk
    · cases hk with
      | inArr hx hkx =>
        rcases List.mem_map.mp hx with ⟨q, _, hq⟩
        exact question_student_no_is_correct q (hq ▸ hkx)

theorem loadQuiz_eq (store : Store) (quiz_id : Int) (r : QuizRow)
    (h : findQuizRow store quiz_id = some r) :
    loadQuiz store quiz_id = some
      ⟨r.id, r.title, r.description, r.category, r.difficulty_level, r.time_limit, r.is_active,
        r.created_at, r.updated_at, r.created_by,
        (store.questions.filter (fun q => q.quiz_id == r.id)).map (loadQuestion store)⟩ := by
  rw [loadQuiz, h]
  rfl

theorem find_replace_split (l : List QuizRow) (qid : Int) (q : QuizRow)
    (h : l.find? (fun r => r.id == qid) = some q) :
    ∃ l1 l2, l = l1 ++ q :: l2 ∧ (∀ r ∈ l1, (r.id == qid) = false) ∧
      ∀ u, replaceQuizRow l qid u = l1 ++ u :: l2 := by
  induction l with
  | nil => simp at h
  | cons r rest ih =>
    cases hbeq : (r.id == qid) with
    | true =>
      simp only [List.find?_cons, hbeq, cond_true] at h
      obtain rfl : r = q := by simpa using h
      exact ⟨[], rest, by simp, by simp, fun u => by simp [replaceQuizRow, hbeq]⟩
    | false =>
      simp only [List.find?_cons, hbeq, cond_false] at h
      obtain ⟨l1, l2, hsplit, hnone, hrep⟩ := ih h
      refine ⟨r :: l1, l2, by simp [hsplit], ?_, fun u => by simp [replaceQuizRow, hbeq, hrep u]⟩
      intro x hx
      rcases List.mem_cons.mp hx with rfl | hx
      · exact hbeq
      · exact hnone x hx

theorem scoreQuestions_results (lookup : Int → Option Int) (qs : List Question) :
    (scoreQuestions lookup qs).2.2 = qs.map (scoreQuestion lookup) := by
  induction qs with
  | nil => rfl
  | cons q rest ih => simp [scoreQuestions, ih]

theorem scoreQuestion_correct_iff (lookup : Int → Option Int) (q : Question)
    (hpos : ∀ a ∈ q.answers, 0 < a.id) :
    ((scoreQuestion lookup q).is_correct = true ↔
      ∃ sid ca, lookup q.id = some sid ∧ get_correct_answer q = some ca ∧ sid = ca.id) := by
  cases hs : lookup q.id with
  | none =>
    simp only [scoreQuestion, hs]
    simp
  | some sid =>
    cases hc : get_correct_answer q with
    | none =>
      simp only [scoreQuestion, hs, hc]
      simp
    | some ca =>
      have hmem : ca ∈ q.answers := List.mem_of_find?_eq_some hc
      have hca : 0 < ca.id := hpos ca hmem
      simp only [scoreQuestion, hs, hc]
      constructor
      · intro h
        have hsplit : sid ≠ 0 ∧ sid = ca.id := by simpa using h
        exact ⟨sid, ca, rfl, rfl, hsplit.2⟩
      · rintro ⟨sid2, ca2, h1, h2, h3⟩
        obtain rfl : sid = sid2 := by simpa using h1
        obtain rfl : ca = ca2 := by simpa using h2
        subst h3
        have hne : ca.id ≠ 0 := by omega
        simp [hne]

theorem scoreQuestion_points (lookup : Int → Option Int) (q : Question) :
    (scoreQuestion lookup q).points_earned =
      (if (scoreQuestion lookup q).is_correct = true then q.points else 0) ∧
    (scoreQuestion lookup q).points_possible = q.points := by
  exact ⟨rfl, rfl⟩

theorem round2_zero : round2 0 = 0 := by
  norm_num [round2, roundHalfEven]

theorem pct_if_pos (c len : Nat) (hne : len ≠ 0) :
    round2 (if 0 < len then (c : ℚ) / (len : ℚ) * 100 else 0) =
      round2 ((c : ℚ) / (len : ℚ) * 100) := by
  rw [if_pos (Nat.pos_of_ne_zero hne)]

theorem ppct_if_pos (e p : Int) (hp : 0 < p) :
    round2 (if 0 < p then (e : ℚ) / (p : ℚ) * 100 else 0) =
      round2 ((e : ℚ) / (p : ℚ) * 100) := by
  rw [if_pos hp]

theorem coerceEntries_error (l : List SubEntry) (e : SubEntry) (he : e ∈ l)
    (qv av : PyVal) (hq : e.question_id = some qv) (ha : e.answer_id = some av)
    (hbad : coerceInt qv = none ∨ coerceInt av = none) :
    coerceEntries l = .error .uncaught := by
  induction l with
  | nil => simp at he
  | cons x rest ih =>
    rcases List.mem_cons.mp he with rfl | hmem
    · have hentry : coerceEntry e = .error .uncaught := by
        simp only [coerceEntry, hq, ha]
        rcases hbad with hb | hb
        · simp [hb]
        · cases hcq : coerceInt qv <;> simp [hb]
      rw [coerceEntries, hentry]
    · have hrest : coerceEntries rest = .error .uncaught := ih hmem
      rw [coerceEntries]
      cases hx : coerceEntry x with
      | error pe => rfl
      | ok o =>
        cases o with
        | none => exact hrest
        | some p => rw [hrest]; rfl

theorem createAnswersLoop_count (l : List AnswerSpec) :
    ∀ (st : Store) (qi : Nat) (qid now : Int) (ai cnt : Nat) (st2 : Store) (c2 : Nat),
      createAnswersLoop st qi qid now ai cnt l = .ok (st2, c2) →
      c2 = cnt + (l.filter (fun a => a.is_correct.getD false)).length := by
  induction l with
  | nil =>
    intro st qi qid now ai cnt st2 c2 h
    rw [createAnswersLoop] at h
    obtain ⟨rfl, rfl⟩ : st = st2 ∧ cnt = c2 := by
      constructor <;> cases h <;> rfl
    simp
  | cons a rest ih =>
    intro st qi qid now ai cnt st2 c2 h
    rw [createAnswersLoop] at h
    by_cases herr : validate_answer_data a ≠ []
    · rw [if_pos herr] at h
      cases h
    · rw [if_neg herr] at h
      have := ih _ qi qid now (ai + 1) _ st2 c2 h
      rw [this]
      by_cases hc : a.is_correct.getD false = true
      · simp [List.filter_cons, hc]
        omega
      · simp [List.filter_cons, hc]

theorem createAnswersLoop_ok (l : List AnswerSpec) :
    ∀ (st : Store) (qi : Nat) (qid now : Int) (ai cnt : Nat),
      (∀ a ∈ l, validate_answer_data a = []) →
      ∃ st2, createAnswersLoop st qi qid now ai cnt l =
        .ok (st2, cnt + (l.filter (fun a => a.is_correct.getD false)).length) := by
  induction l with
  | nil =>
    intro st qi qid now ai cnt _
    exact ⟨st, by rw [createAnswersLoop]; simp⟩
  | cons a rest ih =>
    intro st qi qid now ai cnt h
    have ha : validate_answer_data a = [] := h a (by simp)
    have hrest : ∀ x ∈ rest, validate_answer_data x = [] := fun x hx => h x (by simp [hx])
    obtain ⟨st2, hst2⟩ := ih
      { st with
        answers := st.answers ++
          [⟨st.nextAnswerId, a.text.getD "", a.is_correct.getD false, a.explanation,
            (ai : Int), now, qid⟩]
        nextAnswerId := st.nextAnswerId + 1 }
      qi qid now (ai + 1) (if a.is_correct.getD false then cnt + 1 else cnt) hrest
    refine ⟨st2, ?_⟩
    rw [createAnswersLoop, if_neg (by simp [ha]), hst2]
    simp only [Except.ok.injEq, Prod.mk.injEq]
    refine ⟨trivial, ?_⟩
    by_cases hc : a.is_correct.getD false = true
    · simp [List.filter_cons, hc]
      omega
    · simp [List.filter_cons, hc]

theorem createAnswersLoop_err (l : List AnswerSpec) :
    ∀ (st : Store) (qi : Nat) (qid now : Int) (ai cnt : Nat) (r : Resp Json),
      createAnswersLoop st qi qid now ai cnt l = .error r →
      r.isErr = true ∧ r.status = 422 := by
  induction l with
  | nil =>
    intro st qi qid now ai cnt r h
    rw [createAnswersLoop] at h
    cases h
  | cons a rest ih =>
    intro st qi qid now ai cnt r h
    rw [createAnswersLoop] at h
    by_cases herr : validate_answer_data a ≠ []
    · rw [if_pos herr] at h
      obtain rfl : validation_error_response
          (nestedErrors ("question_" ++ toString qi ++ "_answer_" ++ toString ai)
            (validate_answer_data a)) = r := by
        cases h; rfl
      exact ⟨rfl, rfl⟩
    · rw [if_neg herr] at h
      exact ih _ qi qid now (ai + 1) _ r h

theorem createQuestionsLoop_err (qs : List QuestionSpec) :
    ∀ (st : Store) (quizId now : Int) (qi : Nat) (r : Resp Json),
      createQuestionsLoop st quizId now qi qs = .error r →
      r.isErr = true ∧ r.status = 422 := by
  induction qs with
  | nil =>
    intro st quizId now qi r h
    rw [createQuestionsLoop] at h
    cases h
  | cons q rest ih =>
    intro st quizId now qi r h
    rw [createQuestionsLoop] at h
    by_cases herr : validate_question_data q ≠ []
    · rw [if_pos herr] at h
      obtain rfl : validation_error_response
          (nestedErrors ("question_" ++ toString qi) (validate_question_data q)) = r := by
        cases h; rfl
      exact ⟨rfl, rfl⟩
    · rw [if_neg herr] at h
      dsimp only at h
      split at h
      · rename_i r2 heq
        obtain rfl : r2 = r := by cases h; rfl
        exact createAnswersLoop_err _ _ _ _ _ _ _ _ heq
      · rename_i st3 cnt heq
        by_cases hcnt : cnt ≠ 1
        · rw [if_pos hcnt] at h
          obtain rfl : error_response
              ("Question " ++ toString (qi + 1) ++ " must have exactly one correct answer")
              (422 : Int) = r := by
            cases h; rfl
          exact ⟨rfl, rfl⟩
        · rw [if_neg hcnt] at h
          exact ih _ quizId now (qi + 1) r h

theorem createQuestionsLoop_ok_counts (qs : List QuestionSpec) :
    ∀ (st : Store) (quizId now : Int) (qi : Nat) (st2 : Store),
      createQuestionsLoop st quizId now qi qs = .ok st2 →
      ∀ q ∈ qs, correct_answer_count q = 1 := by
  induction qs with
  | nil => intro st quizId now qi st2 _ q hq; simp at hq
  | cons q rest ih =>
    intro st quizId now qi st2 h x hx
    rw [createQuestionsLoop] at h
    by_cases herr : validate_question_data q ≠ []
    · rw [if_pos herr] at h; cases h
    · rw [if_neg herr] at h
      dsimp only at h
      split at h
      · cases h
      · rename_i st3 cnt heq
        by_cases hcnt : cnt ≠ 1
        · rw [if_pos hcnt] at h; cases h
        · rw [if_neg hcnt] at h
          rcases List.mem_cons.mp hx with rfl | hmem
          · have := createAnswersLoop_count _ _ _ _ _ _ _ _ _ heq
            rw [correct_answer_count]
            omega
          · exact ih _ quizId now (qi + 1) st2 h x hmem

theorem createQuestionsLoop_first_bad (qs : List QuestionSpec) :
    ∀ (i : Nat) (qbad : QuestionSpec) (st : Store) (quizId now : Int) (base : Nat),
      qs[i]? = some qbad →
      (∀ j qj, j < i → qs[j]? = some qj → correct_answer_count qj = 1) →
      (∀ j qj, j ≤ i → qs[j]? = some qj → validate_question_data qj = [] ∧
        ∀ a ∈ qj.answers.getD [], validate_answer_data a = []) →
      correct_answer_count qbad ≠ 1 →
      createQuestionsLoop st quizId now base qs =
        .error (error_response
          ("Question " ++ toString (base + i + 1) ++ " must have exactly one correct answer")
          422) := by
  induction qs with
  | nil => intro i qbad st quizId now base hget _ _ _; simp at hget
  | cons q rest ih =>
    intro i qbad st quizId now base hget hprev hvalid hbad
    cases i with
    | zero =>
      obtain rfl : q = qbad := by simpa using hget
      obtain ⟨hq, hans⟩ := hvalid 0 q (Nat.le_refl 0) (by simp)
      rw [createQuestionsLoop, if_neg (by simp [hq])]
      dsimp only
      obtain ⟨st2, hok⟩ := createAnswersLoop_ok (q.answers.getD [])
        { st with
          questions := st.questions ++
            [⟨st.nextQuestionId, q.text.getD "", q.question_type.getD "multiple_choice",
              q.explanation, q.points.getD 1, (base : Int), now, quizId⟩]
          nextQuestionId := st.nextQuestionId + 1 }
        base st.nextQuestionId now 0 0 hans
      rw [hok]
      dsimp only
      rw [if_pos (by simpa [correct_answer_count] using hbad)]
    | succ i2 =>
      have hq0 : (q :: rest)[0]? = some q := by simp
      obtain ⟨hqv, hansv⟩ := hvalid 0 q (Nat.zero_le _) hq0
      have hcnt0 : correct_answer_count q = 1 := hprev 0 q (Nat.succ_pos i2) hq0
      rw [createQuestionsLoop, if_neg (by simp [hqv])]
      dsimp only
      obtain ⟨st2, hok⟩ := createAnswersLoop_ok (q.answers.getD [])
        { st with
          questions := st.questions ++
            [⟨st.nextQuestionId, q.text.getD "", q.question_type.getD "multiple_choice",
              q.explanation, q.points.getD 1, (base : Int), now, quizId⟩]
          nextQuestionId := st.nextQuestionId + 1 }
        base st.nextQuestionId now 0 0 hansv
      rw [hok]
      dsimp only
      rw [if_neg (by simp [correct_answer_count] at hcnt0; simpa using hcnt0)]
      have hrec := ih i2 qbad st2 quizId now (base + 1) (by simpa using hget)
        (fun j qj hj hg => hprev (j + 1) qj (by omega) (by simpa using hg))
        (fun j qj hj hg => hvalid (j + 1) qj (by omega) (by simpa using hg))
        hbad
      rw [hrec]
      have harith : base + 1 + i2 + 1 = base + (i2 + 1) + 1 := by omega
      rw [harith]

/-! ### Claim theorems -/

/-- C1: for every loaded quiz (with database-assigned positive answer ids) and every coercible submitted answer list, scoring succeeds and each question's result is correct iff a submitted answer id exists for the question in the last-write-wins lookup and equals the correct answer's id; points earned are the full point value exactly when correct, and points possible are the point value in every case. -/
theorem C1_question_correctness (quiz : Quiz) (entries : List SubEntry) (nowIso : String)
    (pairs : List (Int × Int))
    (hpos : ∀ q ∈ quiz.questions, ∀ a ∈ q.answers, 0 < a.id)
    (hco : coerceEntries entries = .ok pairs) :
    ∃ res, process_quiz_submission quiz entries nowIso = .ok res ∧
      res.question_results.length = quiz.questions.length ∧
      ∀ (i : Nat) (q : Question) (r : QuestionResult),
        quiz.questions[i]? = some q → res.question_results[i]? = some r →
        ((r.is_correct = true ↔ ∃ sid ca, buildLookup pairs q.id = some sid ∧
            get_correct_answer q = some ca ∧ sid = ca.id) ∧
         r.points_earned = (if r.is_correct = true then q.points else 0) ∧
         r.points_possible = q.points) := by
  unfold process_quiz_submission
  rw [hco]
  refine ⟨_, rfl, ?_, ?_⟩
  · show (scoreQuestions (buildLookup pairs) quiz.questions).2.2.length = quiz.questions.length
    rw [scoreQuestions_results]
    exact List.length_map _ _
  · intro i q r hq hr
    have hr2 : (quiz.questions.map (scoreQuestion (buildLookup pairs)))[i]? = some r := by
      rw [← scoreQuestions_results]
      exact hr
    rw [List.getElem?_map, hq] at hr2
    obtain rfl : scoreQuestion (buildLookup pairs) q = r := by simpa using hr2
    have hmem : q ∈ quiz.questions := List.getElem?_mem hq
    exact ⟨scoreQuestion_correct_iff (buildLookup pairs) q (hpos q hmem),
      (scoreQuestion_points (buildLookup pairs) q).1,
      (scoreQuestion_points (buildLookup pairs) q).2⟩

/-- Witness for C1 at a concrete one-question quiz and matching submission. -/
theorem C1_question_correctness_witness :
    ∃ res, process_quiz_submission quizW entriesW "t" = .ok res ∧
      res.question_results.length = 1 := by
  obtain ⟨res, hok, hlen, _⟩ := C1_question_correctness quizW entriesW "t" [(1, 1)] (by decide) rfl
  exact ⟨res, hok, by rw [hlen]; rfl⟩

/-- C2 (amended): whenever some question of a create payload has a number of answers flagged correct different from one, `create_quiz` returns a 422 error and commits nothing (the returned store is unchanged); and when the title is truthy and every question up to and including the first offender passes field validation (earlier ones having exactly one correct answer), the 422 error names that question. -/
theorem C2_create_422_atomic :
    (∀ (store : Store) (data : CreatePayload) (created_by : Option String) (now : Int)
       (qs : List QuestionSpec),
      data.questions = some qs → (∃ q ∈ qs, correct_answer_count q ≠ 1) →
      (create_quiz store data created_by now).2 = store ∧
      (create_quiz store data created_by now).1.isErr = true ∧
      (create_quiz store data created_by now).1.status = 422) ∧
    (∀ (store : Store) (data : CreatePayload) (created_by : Option String) (now : Int)
       (qs : List QuestionSpec) (i : Nat) (qbad : QuestionSpec),
      truthyStr data.title = true → data.questions = some qs →
      qs[i]? = some qbad →
      (∀ j qj, j < i → qs[j]? = some qj → correct_answer_count qj = 1) →
      (∀ j qj, j ≤ i → qs[j]? = some qj → validate_question_data qj = [] ∧
        ∀ a ∈ qj.answers.getD [], validate_answer_data a = []) →
      correct_answer_count qbad ≠ 1 →
      create_quiz store data created_by now =
        (error_response ("Question " ++ toString (i + 1) ++ " must have exactly one correct answer")
          422, store)) := by
  constructor
  · rintro store data created_by now qs hqs ⟨qb, hqbmem, hqbbad⟩
    unfold create_quiz
    by_cases hre : validate_required_fields_create data ≠ []
    · rw [if_pos hre]
      exact ⟨rfl, rfl, rfl⟩
    · rw [if_neg hre]
      simp only [hqs]
      by_cases hlen : qs.length = 0
      · rw [if_pos hlen]
        exact ⟨rfl, rfl, rfl⟩
      · rw [if_neg hlen]
        split
        · rename_i r heq
          exact ⟨rfl, (createQuestionsLoop_err _ _ _ _ _ _ heq).1,
            (createQuestionsLoop_err _ _ _ _ _ _ heq).2⟩
        · rename_i st2 heq
          exact absurd (createQuestionsLoop_ok_counts _ _ _ _ _ _ heq qb hqbmem) hqbbad
  · intro store data created_by now qs i qbad htruthy hqs hget hprev hvalid hbad
    have hre : validate_required_fields_create data = [] := by
      rw [validate_required_fields_create, hqs]
      cases ht : data.title with
      | none => rw [ht] at htruthy; simp [truthyStr] at htruthy
      | some s =>
        rw [ht] at htruthy
        have hs : ¬ s = "" := by simpa [truthyStr] using htruthy
        simp [hs]
    have hlen : qs.length ≠ 0 := by
      intro hz
      rw [List.getElem?_eq_none (by omega)] at hget
      cases hget
    unfold create_quiz
    rw [if_neg (by simp [hre])]
    simp only [hqs]
    rw [if_neg hlen]
    rw [createQuestionsLoop_first_bad qs i qbad _ _ now 0 hget hprev hvalid hbad]
    rw [Nat.zero_add]

/-- Counterexample to C2 as stated: in `dataX` question index 1 has two answers flagged correct, create fails with 422 and no rows persisted, but the error names question 0 (whose text is missing), not question 1. -/
theorem C2_naming_counterexample :
    correct_answer_count badQspec ≠ 1 ∧
    dataX.questions = some [q0invalid, badQspec] ∧
    (create_quiz st0 dataX none 0).1.status = 422 ∧
    (create_quiz st0 dataX none 0).2 = st0 ∧
    namesQuestion (create_quiz st0 dataX none 0).1 1 = false := by
  refine ⟨by decide, rfl, rfl, rfl, ?_⟩
  rfl

/-- Witness for C2's amended theorem at a one-question payload whose question has two correct answers. -/
theorem C2_create_422_atomic_witness :
    create_quiz st0 dataBad1 none 0 =
      (error_response "Question 1 must have exactly one correct answer" 422, st0) := by
  have h := C2_create_422_atomic.2 st0 dataBad1 none 0 [badQspec] 0 badQspec rfl rfl rfl
    (fun j qj hj _ => absurd hj (Nat.not_lt_zero j))
    (fun j qj hj hg => by
      obtain rfl : j = 0 := Nat.le_zero.mp hj
      obtain rfl : badQspec = qj := by simpa using hg
      exact ⟨by decide, by decide⟩)
    (by decide)
  exact h

/-- C3: the grade is A for percentage ≥ 90, B on [80, 90), C on [70, 80), D on [60, 70), and F below 60; in particular 90.0 yields A, 89.99 yields B, 60.0 yields D and 59.99 yields F. -/
theorem C3_grade_thresholds (p : ℚ) :
    (90 ≤ p → calculate_grade p = "A") ∧
    (80 ≤ p → p < 90 → calculate_grade p = "B") ∧
    (70 ≤ p → p < 80 → calculate_grade p = "C") ∧
    (60 ≤ p → p < 70 → calculate_grade p = "D") ∧
    (p < 60 → calculate_grade p = "F") ∧
    calculate_grade 90 = "A" ∧ calculate_grade 89.99 = "B" ∧
    calculate_grade 60 = "D" ∧ calculate_grade 59.99 = "F" := by
  refine ⟨?_, ?_, ?_, ?_, ?_, ?_, ?_, ?_, ?_⟩
  · intro h; rw [calculate_grade, if_pos (by linarith : p ≥ 90)]
  · intro h1 h2
    rw [calculate_grade, if_neg (by linarith : ¬ p ≥ 90), if_pos (by linarith : p ≥ 80)]
  · intro h1 h2
    rw [calculate_grade, if_neg (by linarith : ¬ p ≥ 90), if_neg (by linarith : ¬ p ≥ 80),
      if_pos (by linarith : p ≥ 70)]
  · intro h1 h2
    rw [calculate_grade, if_neg (by linarith : ¬ p ≥ 90), if_neg (by linarith : ¬ p ≥ 80),
      if_neg (by linarith : ¬ p ≥ 70), if_pos (by linarith : p ≥ 60)]
  · intro h
    rw [calculate_grade, if_neg (by linarith : ¬ p ≥ 90), if_neg (by linarith : ¬ p ≥ 80),
      if_neg (by linarith : ¬ p ≥ 70), if_neg (by linarith : ¬ p ≥ 60)]
  · norm_num [calculate_grade]
  · norm_num [calculate_grade]
  · norm_num [calculate_grade]
  · norm_num [calculate_grade]

/-- Witness for C3 at the concrete percentage 95. -/
theorem C3_grade_thresholds_witness : calculate_grade 95 = "A" := (C3_grade_thresholds 95).1 (by norm_num)

/-- C4: for every scored submission (nonnegative point values, coercible ids) the summary's percentage_correct equals round2 of correct/total×100 when total_questions is nonzero and 0 when it is zero, and points_percentage equals round2 of earned/possible×100 when points possible is nonzero and 0 when it is zero; a zero-question quiz therefore scores to 0 without any division. -/
theorem C4_percentages_rounded (quiz : Quiz) (entries : List SubEntry) (nowIso : String)
    (pairs : List (Int × Int))
    (hco : coerceEntries entries = .ok pairs)
    (hpts : ∀ q ∈ quiz.questions, 0 ≤ q.points) :
    ∃ res, process_quiz_submission quiz entries nowIso = .ok res ∧
      res.score_summary.total_questions = quiz.questions.length ∧
      (res.score_summary.total_questions ≠ 0 →
        res.score_summary.percentage_correct =
          round2 ((res.score_summary.correct_answers : ℚ) /
            (res.score_summary.total_questions : ℚ) * 100)) ∧
      (res.score_summary.total_questions = 0 → res.score_summary.percentage_correct = 0) ∧
      (res.score_summary.total_points_possible ≠ 0 →
        res.score_summary.points_percentage =
          round2 ((res.score_summary.points_earned : ℚ) /
            (res.score_summary.total_points_possible : ℚ) * 100)) ∧
      (res.score_summary.total_points_possible = 0 → res.score_summary.points_percentage = 0) := by
  have hsum : (0 : Int) ≤ (quiz.questions.map Question.points).sum := by
    refine List.sum_nonneg ?_
    intro x hx
    rcases List.mem_map.mp hx with ⟨q, hq, rfl⟩
    exact hpts q hq
  unfold process_quiz_submission
  rw [hco]
  refine ⟨_, rfl, rfl, ?_, ?_, ?_, ?_⟩
  · intro hne
    exact pct_if_pos _ _ hne
  · intro hz
    have hz2 : quiz.questions.length = 0 := hz
    show round2 (if 0 < quiz.questions.length then _ else 0) = 0
    rw [if_neg (by omega : ¬ 0 < quiz.questions.length)]
    exact round2_zero
  · intro hne
    have hne2 : (quiz.questions.map Question.points).sum ≠ 0 := hne
    exact ppct_if_pos _ _ (by omega)
  · intro hz
    have hz2 : (quiz.questions.map Question.points).sum = 0 := hz
    show round2 (if 0 < (quiz.questions.map Question.points).sum then _ else 0) = 0
    rw [if_neg (by omega : ¬ (0:Int) < (quiz.questions.map Question.points).sum)]
    exact round2_zero

/-- Witness for C4 at a concrete one-question quiz. -/
theorem C4_percentages_rounded_witness :
    ∃ res, process_quiz_submission quizW entriesW "t" = .ok res ∧
      res.score_summary.percentage_correct =
        round2 ((res.score_summary.correct_answers : ℚ) /
          (res.score_summary.total_questions : ℚ) * 100) := by
  obtain ⟨res, hok, htq, hpc, _, _, _⟩ := C4_percentages_rounded quizW entriesW "t" [(1, 1)] rfl (by decide)
  exact ⟨res, hok, hpc (by rw [htq]; decide)⟩

/-- C5 (amended): a submitted entry carrying both keys with an id that `int()` cannot coerce makes the whole submission fail as an uncaught exception (rendered by Flask as a 500 server error, not a 4xx client error); no partial score result is produced. -/
theorem C5_uncoercible_id_uncaught (store : Store) (quiz_id : Int) (sub : Submission)
    (parseIso : String → Option ℚ) (now : ℚ) (nowIso : String)
    (quiz : Quiz) (ans : List SubEntry) (e : SubEntry)
    (hload : loadQuiz store quiz_id = some quiz)
    (hact : quiz.is_active = true)
    (hans : sub.answers = some ans)
    (htime : timeLimitRejected quiz sub parseIso now = false)
    (he : e ∈ ans) (qv av : PyVal)
    (hq : e.question_id = some qv) (ha : e.answer_id = some av)
    (hbad : coerceInt qv = none ∨ coerceInt av = none) :
    submit_quiz store quiz_id sub parseIso now nowIso = .error .uncaught := by
  have hce : coerceEntries ans = .error .uncaught :=
    coerceEntries_error ans e he qv av hq ha hbad
  have hproc : process_quiz_submission quiz ans nowIso = .error .uncaught := by
    unfold process_quiz_submission
    rw [hce]
  simp only [submit_quiz, hload, hact, hans, htime, hproc, Bool.false_eq_true,
    if_false, Bool.not_eq_true]
  cases hia : quiz.is_active
  · rw [hact] at hia; cases hia
  · rfl

/-- Counterexample to C5 as stated: a submission with a non-coercible question_id does not produce a client-error (4xx) response; `submit_quiz` escapes with an uncaught exception (a 500). -/
theorem C5_client_error_counterexample :
    isClientError (submit_quiz stQ 1 subBad (fun _ => none) 0 "t") = false ∧
    submit_quiz stQ 1 subBad (fun _ => none) 0 "t" = .error .uncaught := by
  constructor
  · rfl
  · rfl

/-- Witness for C5's amended theorem at a concrete store and bad submission. -/
theorem C5_uncoercible_id_uncaught_witness :
    submit_quiz stQ 1 subBad (fun _ => none) 0 "t" = .error .uncaught :=
  C5_uncoercible_id_uncaught stQ 1 subBad (fun _ => none) 0 "t" quizQ
    [⟨some .vnone, some (.vint 1)⟩] ⟨some .vnone, some (.vint 1)⟩
    rfl rfl rfl rfl (by simp) .vnone (.vint 1) rfl rfl (Or.inl rfl)

/-- C6: for a quiz with a positive time limit, a submission whose parsable start timestamp puts the elapsed minutes over the limit is rejected with a 422 and no score; a missing or unparsable start timestamp lets the submission proceed to scoring with time not enforced. -/
theorem C6_time_limit_enforcement (store : Store) (quiz_id : Int) (sub : Submission)
    (parseIso : String → Option ℚ) (now : ℚ) (nowIso : String)
    (quiz : Quiz) (ans : List SubEntry) (tl : Int)
    (hload : loadQuiz store quiz_id = some quiz)
    (hact : quiz.is_active = true)
    (hans : sub.answers = some ans)
    (htl : quiz.time_limit = some tl) (htlpos : 0 < tl) :
    (∀ s t, sub.started_at = some s → parseIso (s.replace "Z" "+00:00") = some t →
      (now - t) / 60 > (tl : ℚ) →
      submit_quiz store quiz_id sub parseIso now nowIso =
        .ok (error_response "Time limit exceeded for this quiz" 422)) ∧
    (sub.started_at = none →
      submit_quiz store quiz_id sub parseIso now nowIso =
        (process_quiz_submission quiz ans nowIso).map
          (fun results => success_response results "Quiz submitted successfully!" 200)) ∧
    (∀ s, sub.started_at = some s → parseIso (s.replace "Z" "+00:00") = none →
      submit_quiz store quiz_id sub parseIso now nowIso =
        (process_quiz_submission quiz ans nowIso).map
          (fun results => success_response results "Quiz submitted successfully!" 200)) := by
  refine ⟨?_, ?_, ?_⟩
  · intro s t hs hp hgt
    have hne : tl ≠ 0 := by omega
    have hrej : timeLimitRejected quiz sub parseIso now = true := by
      simp only [timeLimitRejected, htl, hs, hp]
      simp [hne, hgt]
    simp [submit_quiz, hload, hact, hans, hrej]
  · intro hs
    have hrej : timeLimitRejected quiz sub parseIso now = false := by
      simp [timeLimitRejected, htl, hs]
    simp [submit_quiz, hload, hact, hans, hrej]
  · intro s hs hp
    have hrej : timeLimitRejected quiz sub parseIso now = false := by
      simp only [timeLimitRejected, htl, hs, hp]
      simp
    simp [submit_quiz, hload, hact, hans, hrej]

/-- Witness for C6 at a 30-minute quiz submitted 40 minutes after the start timestamp. -/
theorem C6_time_limit_enforcement_witness :
    submit_quiz stTL 1 ⟨some [], some "x"⟩ (fun _ => some 0) 2400 "" =
      .ok (error_response "Time limit exceeded for this quiz" 422) :=
  (C6_time_limit_enforcement stTL 1 ⟨some [], some "x"⟩ (fun _ => some 0) 2400 "" quizTL [] 30
    rfl rfl rfl rfl (by norm_num)).1 "x" 0 rfl rfl (by norm_num)

/-- C7: the student-safe serialization of any quiz contains no is_correct key at any depth, and hence neither does the payload of any successful `get_quiz` fetch with for_student set. -/
theorem C7_student_payload_no_is_correct :
    (∀ qz : Quiz, ¬ HasKey "is_correct" (Quiz.to_student_dict qz)) ∧
    (∀ (store : Store) (quiz_id : Int) (m : String) (d : Json) (s : Int),
      get_quiz store quiz_id true = .ok m d s → ¬ HasKey "is_correct" d) := by
  refine ⟨quiz_student_no_is_correct, ?_⟩
  intro store quiz_id m d s h
  cases hload : loadQuiz store quiz_id with
  | none => simp [get_quiz, hload, error_response] at h
  | some quiz =>
    by_cases hact : quiz.is_active
    · simp [get_quiz, hload, hact, success_response] at h
      rw [← h.2.1]
      exact quiz_student_no_is_correct quiz
    · have hf : quiz.is_active = false := by simpa using hact
      simp [get_quiz, hload, hf, error_response] at h

/-- Witness for C7 on a concrete stored quiz fetched with for_student true. -/
theorem C7_student_payload_no_is_correct_witness : ¬ HasKey "is_correct" studentPayloadA :=
  C7_student_payload_no_is_correct.2 storeA 1 "Quiz retrieved successfully" studentPayloadA 200 rfl

/-- C8: the scoring lookup built from the submitted pairs maps a key to the value of the last pair carrying that key (the first match in the reversed list), so appending a pair for a key overrides every earlier entry for it. -/
theorem C8_last_write_wins (pairs : List (Int × Int)) (k : Int) :
    buildLookup pairs k = (pairs.reverse.find? (fun p => p.1 == k)).map Prod.snd ∧
    (∀ v : Int, buildLookup (pairs ++ [(k, v)]) k = some v) := by
  constructor
  · rw [buildLookup, foldl_lookup_eq]
    cases pairs.reverse.find? (fun p => p.1 == k) <;> simp
  · intro v
    rw [buildLookup, foldl_lookup_eq]
    simp

/-- C9: updating a missing quiz id returns 404 and leaves the store unchanged; updating an existing quiz replaces exactly the first row with that id, applies exactly the supplied subset of the six scalar fields, leaves absent fields and identity/creation metadata untouched, refreshes updated_at, and leaves every other row and table unchanged. -/
theorem C9_partial_update (store : Store) (quiz_id : Int) (data : UpdatePayload) (now : Int) :
    (findQuizRow store quiz_id = none →
      update_quiz store quiz_id data now = (error_response "Quiz not found" 404, store)) ∧
    (∀ quiz : QuizRow, findQuizRow store quiz_id = some quiz →
      ∃ l1 l2, store.quizzes = l1 ++ quiz :: l2 ∧ (∀ r ∈ l1, (r.id == quiz_id) = false) ∧
        (update_quiz store quiz_id data now).2 =
          { store with quizzes := l1 ++ applyUpdate quiz data now :: l2 } ∧
        ((update_quiz store quiz_id data now).2.questions = store.questions ∧
         (update_quiz store quiz_id data now).2.answers = store.answers) ∧
        (let u := applyUpdate quiz data now
         (data.title = none → u.title = quiz.title) ∧
         (∀ v, data.title = some v → u.title = v) ∧
         (data.description = none → u.description = quiz.description) ∧
         (∀ v, data.description = some v → u.description = v) ∧
         (data.category = none → u.category = quiz.category) ∧
         (∀ v, data.category = some v → u.category = v) ∧
         (data.difficulty_level = none → u.difficulty_level = quiz.difficulty_level) ∧
         (∀ v, data.difficulty_level = some v → u.difficulty_level = v) ∧
         (data.time_limit = none → u.time_limit = quiz.time_limit) ∧
         (∀ v, data.time_limit = some v → u.time_limit = v) ∧
         (data.is_active = none → u.is_active = quiz.is_active) ∧
         (∀ v, data.is_active = some v → u.is_active = v) ∧
         u.updated_at = now ∧ u.id = quiz.id ∧ u.created_at = quiz.created_at ∧
         u.created_by = quiz.created_by)) := by
  constructor
  · intro hnone
    rw [update_quiz, hnone]
  · intro quiz hfind
    obtain ⟨l1, l2, hsplit, hnone, hrep⟩ := find_replace_split store.quizzes quiz_id quiz hfind
    refine ⟨l1, l2, hsplit, hnone, ?_, ?_, ?_⟩
    · rw [update_quiz, hfind]
      simp [hrep]
    · rw [update_quiz, hfind]
      exact ⟨rfl, rfl⟩
    · refine ⟨fun h => by simp [applyUpdate, h], fun v h => by simp [applyUpdate, h],
        fun h => by simp [applyUpdate, h], fun v h => by simp [applyUpdate, h],
        fun h => by simp [applyUpdate, h], fun v h => by simp [applyUpdate, h],
        fun h => by simp [applyUpdate, h], fun v h => by simp [applyUpdate, h],
        fun h => by simp [applyUpdate, h], fun v h => by simp [applyUpdate, h],
        fun h => by simp [applyUpdate, h], fun v h => by simp [applyUpdate, h],
        rfl, rfl, rfl, rfl⟩

/-- Witness for C9 at a concrete store, a missing id, and a title+is_active update. -/
theorem C9_partial_update_witness :
    (update_quiz stOne 5 updTitle 9 = (error_response "Quiz not found" 404, stOne)) ∧
    ∃ l1 l2, stOne.quizzes = l1 ++ rowB :: l2 ∧ (∀ r ∈ l1, (r.id == (1:Int)) = false) ∧
      (update_quiz stOne 1 updTitle 9).2 =
        { stOne with quizzes := l1 ++ applyUpdate rowB updTitle 9 :: l2 } ∧
      (applyUpdate rowB updTitle 9).title = "New" ∧
      (applyUpdate rowB updTitle 9).is_active = false ∧
      (applyUpdate rowB updTitle 9).description = rowB.description ∧
      (applyUpdate rowB updTitle 9).updated_at = 9 := by
  refine ⟨(C9_partial_update stOne 5 updTitle 9).1 rfl, ?_⟩
  obtain ⟨l1, l2, hsplit, hnone, hst, _, hfields⟩ :=
    (C9_partial_update stOne 1 updTitle 9).2 rowB rfl
  exact ⟨l1, l2, hsplit, hnone, hst, hfields.2.1 "New" rfl, hfields.2.2.2.2.2.2.2.2.2.2.2.1 false rfl,
    hfields.2.2.1 rfl, hfields.2.2.2.2.2.2.2.2.2.2.2.2.1⟩

/-- C10: when the stored quiz row exists but is_active is false, fetching the quiz, starting a session and submitting answers all return the 403 error response with no quiz data or score. -/
theorem C10_inactive_quiz_403 (store : Store) (quiz_id : Int) (qrow : QuizRow)
    (hfind : findQuizRow store quiz_id = some qrow)
    (hinactive : qrow.is_active = false) :
    (∀ for_student : Bool,
      get_quiz store quiz_id for_student = error_response "Quiz is not currently available" 403) ∧
    (∀ (student_id : Option String) (fmt : ℚ → String) (now : ℚ),
      start_quiz_session store quiz_id student_id fmt now =
        error_response "Quiz is not currently available" 403) ∧
    (∀ (sub : Submission) (parseIso : String → Option ℚ) (now : ℚ) (nowIso : String),
      submit_quiz store quiz_id sub parseIso now nowIso =
        .ok (error_response "Quiz is not currently available" 403)) := by
  have hload := loadQuiz_eq store quiz_id qrow hfind
  refine ⟨?_, ?_, ?_⟩
  · intro fs
    simp [get_quiz, hload, hinactive]
  · intro sid fmt now
    simp [start_quiz_session, hload, hinactive]
  · intro sub parseIso now nowIso
    simp [submit_quiz, hload, hinactive]

/-- Witness for C10 on a concrete store holding an inactive quiz. -/
theorem C10_inactive_quiz_403_witness :
    get_quiz stInactive 1 true = error_response "Quiz is not currently available" 403 ∧
    start_quiz_session stInactive 1 none (fun _ => "") 0 =
      error_response "Quiz is not currently available" 403 ∧
    submit_quiz stInactive 1 ⟨some [], none⟩ (fun _ => none) 0 "" =
      .ok (error_response "Quiz is not currently available" 403) := by
  have h := C10_inactive_quiz_403 stInactive 1 ⟨1, "T", none, none, "beginner", none, false, 0, 0, none⟩ rfl rfl
  exact ⟨h.1 true, h.2.1 none (fun _ => "") 0, h.2.2 ⟨some [], none⟩ (fun _ => none) 0 ""⟩

end QuizApi
